import Mathlib

set_option linter.unusedVariables false

/-!
Verification of the duplicate-safe file materialization routines of the
`jko_api_utils` repository (`jko_api_utils/utils/save_data.py` and
`jko_api_utils/google/drive/download/main.py`), over a shallow embedding:
the local filesystem is a finite association list from path strings to file
contents plus a list of directories, Python strings are lists of characters,
and Python exceptions are an explicit error type threaded through `Except`.
Functions that mutate the filesystem return the new filesystem explicitly.
-/

/-- Python exception values the embedded code can raise. -/
inductive PyErr where
  | valueError (msg : String)
  | typeError (msg : String)
  | nameError (missing : String)
  | fileNotFoundError (msg : String)
  | isADirectoryError (msg : String)
  | ioError (msg : String)
deriving DecidableEq

/-- A Python payload handed to the save utilities: a `str` or a `bytes` value
(bytes as their numeric values). -/
inductive PyData where
  | str (s : String)
  | bytes (b : List Nat)
deriving DecidableEq

/-- Contents of a file on disk: text written through a UTF-8 text-mode handle,
or raw bytes written through a binary-mode handle. UTF-8 encoding and decoding
are mutually inverse, so text contents are recorded as the decoded string. -/
inductive FileContent where
  | text (s : String)
  | bin (b : List Nat)
deriving DecidableEq

/-- A Python path string, as its list of characters. -/
abbrev PathStr := List Char

/-- PathStr of a Lean string literal. -/
def pstr (s : String) : PathStr := s.data

/-- The local filesystem: files with their contents, and directories.
File entries added later shadow earlier ones with the same path. -/
structure FS where
  files : List (PathStr × FileContent)
  dirs : List PathStr
deriving DecidableEq

/-- Association-list lookup for file contents. -/
def lookupFile : List (PathStr × FileContent) → PathStr → Option FileContent
  | [], _ => none
  | (q, c) :: rest, p => if q = p then some c else lookupFile rest p

/-- Membership of a path in a list of directory paths. -/
def containsPath : List PathStr → PathStr → Bool
  | [], _ => false
  | q :: rest, p => if q = p then true else containsPath rest p

/-- os.path.exists: a path exists when a file or a directory is recorded at
it; `os.path.exists("")` is False in Python. -/
def os_path_exists (fs : FS) (p : PathStr) : Bool :=
  !p.isEmpty && ((lookupFile fs.files p).isSome || containsPath fs.dirs p)

/-- os.path.isdir. -/
def os_path_isdir (fs : FS) (p : PathStr) : Bool :=
  !p.isEmpty && containsPath fs.dirs p

/-- Record new contents at a path (newest entry first shadows older ones). -/
def setFile (fs : FS) (p : PathStr) (c : FileContent) : FS :=
  { fs with files := (p, c) :: fs.files }

/-- os.path.dirname for POSIX paths: everything up to the last slash, with
trailing slashes stripped unless that head consists of slashes only; a path
with no slash has dirname `""`. -/
def dirnameChars (p : PathStr) : PathStr :=
  let head := (p.reverse.dropWhile (fun c => c != '/')).reverse
  if head.isEmpty || head.all (fun c => c == '/') then head
  else (head.reverse.dropWhile (fun c => c == '/')).reverse

/-- The final path component (pathlib `Path.name`): the characters after the
last slash. -/
def nameChars (p : PathStr) : PathStr :=
  (p.reverse.takeWhile (fun c => c != '/')).reverse

/-- The part of the path up to and including the last slash: the part
`with_name` keeps. -/
def dirPart (p : PathStr) : PathStr :=
  (p.reverse.dropWhile (fun c => c != '/')).reverse

/-- pathlib stem/suffix of a file name: split at the last dot, provided that
dot is neither the first nor the last character of the name; otherwise the
suffix is empty. -/
def splitExtChars (n : PathStr) : PathStr × PathStr :=
  match n.reverse.dropWhile (fun c => c != '.') with
  | [] => (n, [])
  | c :: restTail =>
    if restTail.isEmpty then (n, [])
    else if (n.reverse.takeWhile (fun c => c != '.')).isEmpty then (n, [])
    else (restTail.reverse, c :: (n.reverse.takeWhile (fun c => c != '.')).reverse)

/-- pathlib `Path.stem` of the path's final component. -/
def stemChars (p : PathStr) : PathStr := (splitExtChars (nameChars p)).1

/-- pathlib `Path.suffix` of the path's final component. -/
def suffixChars (p : PathStr) : PathStr := (splitExtChars (nameChars p)).2

/-- pathlib `with_name`: replace the final component. -/
def with_name (p : PathStr) (newName : PathStr) : PathStr := dirPart p ++ newName

/-- One RENAME candidate: `path.with_name(f"{path.stem}_{j}{path.suffix}")`. -/
def renameCandidate (p : PathStr) (j : Nat) : PathStr :=
  with_name p (stemChars p ++ '_' :: (Nat.repr j).data ++ suffixChars p)

/-- The length of the longest path recorded in the filesystem (file or
directory); every existing path is at most this long. -/
def maxPathLen (fs : FS) : Nat :=
  (fs.files.map (fun e => e.1.length) ++ fs.dirs.map List.length).foldr max 0

/-- The DuplicateStrategy enumeration of save_data.py. -/
inductive DuplicateStrategy where
  | overwrite
  | rename
  | skip
deriving DecidableEq

/-- The RENAME loop of preprocess_duplicate_paths:
`while path.exists(): path = path.with_name(f"{path.stem}_{j}{path.suffix}"); j += 1`.
The loop runs on explicit fuel; `renameResolve` supplies enough fuel for it to
reach a non-existent path, since each candidate is strictly longer than the
previous path and every existing path is at most `maxPathLen` long. -/
def renameLoop (fs : FS) : Nat → PathStr → Nat → PathStr
  | 0, path, _ => path
  | fuel + 1, path, j =>
    if os_path_exists fs path then renameLoop fs fuel (renameCandidate path j) (j + 1)
    else path

/-- The RENAME resolution of one existing path by preprocess_duplicate_paths. -/
def renameResolve (fs : FS) (path : PathStr) : PathStr :=
  renameLoop fs (maxPathLen fs + 1) path 1

/-- preprocess_duplicate_paths from save_data.py: each path is examined
against the (unmodified) filesystem; an existing path is dropped under SKIP,
kept under OVERWRITE, and replaced by the rename loop's result under RENAME.
The Python code records skip indices during the pass and deletes them after
it, which equals this per-element filterMap because the pass never touches
the filesystem and no entry's outcome affects another entry's. -/
def preprocess_duplicate_paths (fs : FS) (path_list : List PathStr)
    (duplicate_strategy : DuplicateStrategy) : List PathStr :=
  path_list.filterMap fun path =>
    if os_path_exists fs path then
      match duplicate_strategy with
      | .skip => none
      | .overwrite => some path
      | .rename => some (renameResolve fs path)
    else some path

/-- The paths `os.makedirs(p, exist_ok=True)` records: `p` itself and each of
its ancestors by iterated dirname (the model assumes no existing file occupies
any of them, as exist_ok only tolerates existing directories). -/
def makedirsList : Nat → PathStr → List PathStr
  | 0, _ => []
  | fuel + 1, p =>
    if p.isEmpty then []
    else
      p :: (if (dirnameChars p).isEmpty || dirnameChars p = p then []
            else makedirsList fuel (dirnameChars p))

/-- os.makedirs(p, exist_ok=True) on the model filesystem. -/
def makedirs (fs : FS) (p : PathStr) : FS :=
  { fs with dirs := makedirsList (p.length + 1) p ++ fs.dirs }

/-- create_dirs_if_needed from save_data.py. Note that the source calls
`os.makedirs(path, exist_ok=True)` on the full path, not on its parent
directory `os.path.dirname(path)`, although the guard tests the parent. -/
def create_dirs_if_needed (fs : FS) (path : PathStr) (create_missing_dirs : Bool) :
    FS × Except PyErr Unit :=
  if !(dirnameChars path).isEmpty && !(os_path_exists fs (dirnameChars path)) then
    if !create_missing_dirs then
      (fs, .error (.valueError ("Destination directory does not exist: "
        ++ String.mk (dirnameChars path))))
    else (makedirs fs path, .ok ())
  else (fs, .ok ())

/-- determine_mode_and_encoding from save_data.py; `data_format` is the
optional format string ("text"/"binary"). The trailing validity checks of the
source are kept although they always pass. -/
def determine_mode_and_encoding (data : PyData) (data_format : Option String)
    (append : Bool) : Except PyErr (String × Option String) :=
  let textLike : Bool :=
    data_format == some "text"
      || (data_format == none && match data with | .str _ => true | .bytes _ => false)
  let mode := if append then (if textLike then "a" else "ab")
              else (if textLike then "w" else "wb")
  let encoding := if textLike then some "utf-8" else none
  if !(mode == "w" || mode == "wb" || mode == "a" || mode == "ab") then
    .error (.valueError "Invalid mode")
  else if !(encoding == none || encoding == some "utf-8") then
    .error (.valueError "Invalid encoding")
  else .ok (mode, encoding)

/-- str(data) for a bytes payload: Python renders `b'...'`; the exact escape
rules are immaterial to every claim, so the bytes are rendered one character
per byte value. -/
def bytesRepr (b : List Nat) : String :=
  "b'" ++ String.mk (b.map Char.ofNat) ++ "'"

/-- str(data) for the payloads the save utilities handle. -/
def pyStr : PyData → String
  | .str s => s
  | .bytes b => bytesRepr b

/-- Appending a written chunk to existing contents (same-kind appends only
arise through matching modes; a mixed append, which no claim exercises, is
modelled as replacement). -/
def appendContent : FileContent → FileContent → FileContent
  | .text a, .text b => .text (a ++ b)
  | .bin a, .bin b => .bin (a ++ b)
  | _, c => c

/-- The open/write step of save_data_to_file once its own checks have passed:
"wb"/"ab" open a binary handle, "w"/"a" a text handle; then
`if isinstance(data, bytes) and encoding is None: f.write(data) else:
f.write(str(data))`. Writing data of the wrong kind for the handle raises
TypeError and opening a binary handle with an encoding raises ValueError; the
model leaves the file untouched in those error cases, which no claim
exercises. -/
def fileWrite (fs : FS) (data : PyData) (dest : PathStr) (mode : String)
    (encoding : Option String) : FS × Except PyErr Unit :=
  let isBinary : Bool := mode == "wb" || mode == "ab"
  let isAppend : Bool := mode == "a" || mode == "ab"
  if isBinary && encoding.isSome then
    (fs, .error (.valueError "binary mode doesn't take an encoding argument"))
  else
    let chunk : Except PyErr FileContent :=
      match data, encoding, isBinary with
      | .bytes b, none, true => .ok (.bin b)
      | .bytes _, none, false =>
        .error (.typeError "write() argument must be str, not bytes")
      | .bytes b, some _, false => .ok (.text (pyStr (.bytes b)))
      | .bytes _, some _, true => .error (.typeError "unreachable: excluded above")
      | .str s, _, false => .ok (.text s)
      | .str _, _, true => .error (.typeError "a bytes-like object is required, not str")
    match chunk with
    | .error e => (fs, .error e)
    | .ok c =>
      let newC := if isAppend then
          match lookupFile fs.files dest with
          | some old => appendContent old c
          | none => c
        else c
      (setFile fs dest newC, .ok ())

/-- save_data_to_file from save_data.py. Encoding is an `Option String` in the
model, so the source's `isinstance(encoding, str)` TypeError can never fire. -/
def save_data_to_file (fs : FS) (data : PyData) (dest : PathStr) (mode : String)
    (encoding : Option String) : FS × Except PyErr Unit :=
  if !(mode == "w" || mode == "wb" || mode == "a" || mode == "ab") then
    (fs, .error (.valueError "Invalid mode"))
  else if os_path_isdir fs dest then
    (fs, .error (.isADirectoryError ("Destination is a directory: " ++ String.mk dest)))
  else if !(os_path_exists fs (dirnameChars dest)) then
    (fs, .error (.fileNotFoundError ("Destination does not exist: " ++ String.mk dest)))
  else fileWrite fs data dest mode encoding

/-- Reading a file back as text with UTF-8 decoding: text contents decode to
the string that was written, UTF-8 encoding and decoding being mutually
inverse; a missing file yields none, binary contents are not decoded. -/
def readTextUTF8 (fs : FS) (p : PathStr) : Option String :=
  match lookupFile fs.files p with
  | some (.text s) => some s
  | _ => none

/-- Reading a file back in binary mode: binary contents byte for byte, text
contents as their UTF-8 encoding. -/
def readBytes (fs : FS) (p : PathStr) : Option (List Nat) :=
  match lookupFile fs.files p with
  | some (.bin b) => some b
  | some (.text s) => some (s.toUTF8.toList.map (fun u => u.toNat))
  | none => none

/-- The single-destination save pipeline exactly as the decorator sequences it
for one path: directory handling first, then the write. -/
def save_with_dirs (fs : FS) (data : PyData) (dest : PathStr) (mode : String)
    (encoding : Option String) (create_dirs : Bool) : FS × Except PyErr Unit :=
  match create_dirs_if_needed fs dest create_dirs with
  | (fs1, .error e) => (fs1, .error e)
  | (fs1, .ok _) => save_data_to_file fs1 data dest mode encoding

/-- The `path_list` argument of the decorators: a single path string or a
list of paths (a non-list argument is wrapped into a one-element list). -/
inductive PathArg where
  | one (p : PathStr)
  | many (ps : List PathStr)
deriving DecidableEq

/-- The `if not isinstance(path_list, list): path_list = [path_list]` step. -/
def toPathList : PathArg → List PathStr
  | .one p => [p]
  | .many ps => ps

/-- validate_arguments from save_data.py. -/
def validate_arguments (dest : Option PathArg) (return_data : Bool) :
    Except PyErr Unit :=
  if dest.isNone && !return_data then
    .error (.valueError "dest cannot be None when return_data is False")
  else .ok ()

/-- The `for file_path in path_list: create_dirs_if_needed(file_path,
create_dirs)` loop of process_path_list, stopping at the first error. -/
def create_dirs_loop : FS → List PathStr → Bool → FS × Except PyErr Unit
  | fs, [], _ => (fs, .ok ())
  | fs, p :: rest, create_dirs =>
    match create_dirs_if_needed fs p create_dirs with
    | (fs1, .error e) => (fs1, .error e)
    | (fs1, .ok _) => create_dirs_loop fs1 rest create_dirs

/-- process_path_list from save_data.py. -/
def process_path_list (fs : FS) (path_list : Option PathArg) (create_dirs : Bool)
    (duplicate_strategy : DuplicateStrategy) :
    FS × Except PyErr (Option (List PathStr)) :=
  match path_list with
  | none => (fs, .ok none)
  | some pa =>
    match create_dirs_loop fs (toPathList pa) create_dirs with
    | (fs1, .error e) => (fs1, .error e)
    | (fs1, .ok _) =>
      (fs1, .ok (some (preprocess_duplicate_paths fs1 (toPathList pa) duplicate_strategy)))

/-- What the wrapped function's call produced, as the wrapper classifies it:
a single str/bytes value, a generator (its yielded items), or a value of any
other type. -/
inductive FuncResult where
  | single (d : PyData)
  | gen (ds : List PyData)
  | other
deriving DecidableEq

/-- The `results` normalization of the wrapper: a str/bytes result becomes a
one-element list, a generator is taken as is, anything else raises TypeError. -/
def results_of : FuncResult → Except PyErr (List PyData)
  | .single d => .ok [d]
  | .gen ds => .ok ds
  | .other =>
    .error (.typeError "The decorated function must return a string or bytes, or an iterable.")

/-- The wrapper body's read of the name `data_format`: that name is bound
nowhere in the wrapper, the decorator or the module, so evaluating it raises
NameError. -/
def lookup_data_format : Except PyErr (Option String) :=
  .error (.nameError "data_format")

/-- The decorator's write loop over `zip(path_list, results, strict=True)`:
when one side is exhausted while the other still yields, the strict zip raises
ValueError; a produced pair runs the loop body, whose first statement
evaluates the unbound name `data_format`. -/
def save_loop (fs : FS) (paths : List PathStr) (results : List PyData)
    (return_data : Bool) : FS × Except PyErr (List PyData) :=
  match paths, results with
  | [], [] => (fs, .ok [])
  | [], _ :: _ => (fs, .error (.valueError "zip() argument 2 is longer than argument 1"))
  | _ :: _, [] => (fs, .error (.valueError "zip() argument 2 is shorter than argument 1"))
  | dest :: restPaths, result :: restResults =>
    match lookup_data_format with
    | .error e => (fs, .error e)
    | .ok data_format =>
      match determine_mode_and_encoding result data_format false with
      | .error e => (fs, .error e)
      | .ok (mode, encoding) =>
        match save_data_to_file fs result dest mode encoding with
        | (fs1, .error e) => (fs1, .error e)
        | (fs1, .ok _) =>
          match save_loop fs1 restPaths restResults return_data with
          | (fs2, .error e) => (fs2, .error e)
          | (fs2, .ok acc) => (fs2, .ok (if return_data then result :: acc else acc))

/-- The wrapper's Python return value. -/
inductive PyRet where
  | retNone
  | one (d : PyData)
  | many (ds : List PyData)
deriving DecidableEq

/-- The wrapper's final return: with return_data, a single collected item is
returned bare and any other count as a list; without return_data the function
falls off the end and returns None. -/
def wrapper_return (return_data : Bool) (data_to_return : List PyData) : PyRet :=
  if return_data then
    match data_to_return with
    | [d] => .one d
    | ds => .many ds
  else .retNone

/-- The wrapper function produced by save_to_file_decorator, with the wrapped
function's produced value passed in as `funcResult` (the source defaults are
`return_data=True, create_dirs=False, duplicate_strategy=SKIP`). -/
def save_to_file_wrapper (fs : FS) (path_list : Option PathArg)
    (return_data create_dirs : Bool) (duplicate_strategy : DuplicateStrategy)
    (funcResult : FuncResult) : FS × Except PyErr PyRet :=
  match validate_arguments path_list return_data with
  | .error e => (fs, .error e)
  | .ok _ =>
    match process_path_list fs path_list create_dirs duplicate_strategy with
    | (fs1, .error e) => (fs1, .error e)
    | (fs1, .ok plOpt) =>
      match results_of funcResult with
      | .error e => (fs1, .error e)
      | .ok results =>
        match plOpt with
        | some paths =>
          match save_loop fs1 paths results return_data with
          | (fs2, .error e) => (fs2, .error e)
          | (fs2, .ok data_to_return) =>
            (fs2, .ok (wrapper_return return_data data_to_return))
        | none => (fs1, .ok (wrapper_return return_data results))

/-- The rename loop of handle_duplicate_decorator: `while True` first forms
the next candidate from the current path, then keeps it if it does not exist,
else continues from that candidate with `j + 1`. -/
def hdRenameLoop (fs : FS) : Nat → PathStr → Nat → PathStr
  | 0, path, _ => path
  | fuel + 1, path, j =>
    if os_path_exists fs (renameCandidate path j) then
      hdRenameLoop fs fuel (renameCandidate path j) (j + 1)
    else renameCandidate path j

/-- Path processing of handle_duplicate_decorator for one list entry: RENAME
replaces an existing path via its rename loop; SKIP hits `continue`, which
leaves the entry in the list unchanged; OVERWRITE matches no branch and also
leaves it unchanged. -/
def handle_duplicate_one (fs : FS) (duplicates_strategy : DuplicateStrategy)
    (path : PathStr) : PathStr :=
  if os_path_exists fs path then
    match duplicates_strategy with
    | .rename => hdRenameLoop fs (maxPathLen fs + 1) path 1
    | .skip => path
    | .overwrite => path
  else path

/-- handle_duplicate_decorator from save_data.py, wrapping a function that
receives the processed path list and acts on the filesystem. -/
def handle_duplicate_wrapper {α : Type} (func : FS → List PathStr → FS × α)
    (fs : FS) (path_list : Option PathArg)
    (duplicates_strategy : DuplicateStrategy) : FS × Except PyErr α :=
  match path_list with
  | none => (fs, .error (.valueError "The 'path_list' parameter must be set."))
  | some pa =>
    let r := func fs ((toPathList pa).map (handle_duplicate_one fs duplicates_strategy))
    (r.1, .ok r.2)

/-- A wrapped function that writes the text "new" to every path it receives,
built from the repository's own save_data_to_file in text mode. -/
def writeNewToAll (fs : FS) (paths : List PathStr) : FS × Unit :=
  (paths.foldl (fun f p => (save_data_to_file f (.str "new") p "w" (some "utf-8")).1) fs, ())

/-- The rename loop body of handle_duplicate_rename (download/main.py) reads
the name `to` in `os.path.join(to, ...)`; that name is bound nowhere in the
function or module, so evaluating it raises NameError. -/
def lookup_to : Except PyErr PathStr :=
  .error (.nameError "to")

/-- handle_duplicate_rename from google/drive/download/main.py. When the path
exists the first loop iteration evaluates the unbound name `to` and the
NameError propagates (nothing after that read is ever reached); when the path
does not exist the loop body never runs and the path is returned unchanged. -/
def handle_duplicate_rename (fs : FS) (file_path : PathStr) : Except PyErr PathStr :=
  if os_path_exists fs file_path then
    match lookup_to with
    | .error e => .error e
    | .ok _ => .ok file_path
  else .ok file_path

/-- export_google_workspace_document from google/drive/download/main.py. The
remote export, delegated to the SDK, is an oracle that either completes with
the exported bytes or raises HttpError at some point of the chunked download.
The except-branch prints the error, assigns `content = None`, and execution
falls off the end of the function, returning None. -/
def export_google_workspace_document (remote : Except String (List Nat)) :
    Except PyErr (Option (List Nat)) :=
  match remote with
  | .ok content => .ok (some content)
  | .error _ => .ok none

/-- The candidate sequence the preprocess rename loop walks from a path, with
counter values starting at `j`: each next candidate is built from the previous
candidate, so earlier numeric suffixes accumulate inside the stem. -/
def accumFrom (p : PathStr) (j : Nat) : Nat → PathStr
  | 0 => p
  | k + 1 => renameCandidate (accumFrom p j k) (j + k)

/-- Concrete filesystem: one directory `t` and nothing else. -/
def fsDirT : FS := { files := [], dirs := [pstr "t"] }

/-- Concrete filesystem for the SKIP batch: directory `t` and an existing
file `t/b.txt`. -/
def fsSkip3 : FS := { files := [(pstr "t/b.txt", .text "old")], dirs := [pstr "t"] }

/-- Concrete filesystem for the handle_duplicate SKIP overwrite: directory
`d` and an existing file `d/f.txt` with contents "old". -/
def fsHd : FS := { files := [(pstr "d/f.txt", .text "old")], dirs := [pstr "d"] }

/-- Concrete filesystem for the RENAME suffix shape: existing files `f.txt`
and `f_1.txt`. -/
def fsRen : FS := { files := [(pstr "f.txt", .text "a"), (pstr "f_1.txt", .text "b")], dirs := [] }

/-- Concrete empty filesystem. -/
def fsEmpty : FS := { files := [], dirs := [] }

/-! ## Helper lemmas -/

/-- Splitting a path at its last slash is lossless. -/
theorem dirPart_append_nameChars (p : PathStr) : dirPart p ++ nameChars p = p := by
  unfold dirPart nameChars
  rw [← List.reverse_append, List.takeWhile_append_dropWhile, List.reverse_reverse]

/-- Splitting a file name into stem and suffix is lossless. -/
theorem splitExt_append (n : PathStr) : (splitExtChars n).1 ++ (splitExtChars n).2 = n := by
  have hsplit : n.reverse.takeWhile (fun c => c != '.') ++ n.reverse.dropWhile (fun c => c != '.')
      = n.reverse := List.takeWhile_append_dropWhile (fun c => c != '.') n.reverse
  unfold splitExtChars
  cases hd : n.reverse.dropWhile (fun c => c != '.') with
  | nil => simp
  | cons c restTail =>
    by_cases h1 : restTail.isEmpty
    · simp [h1]
    · by_cases h2 : (n.reverse.takeWhile (fun c => c != '.')).isEmpty
      · simp [h1, h2]
      · simp only [h1, h2, Bool.false_eq_true, if_false]
        rw [hd] at hsplit
        have hrw : restTail.reverse ++ c :: (n.reverse.takeWhile (fun c => c != '.')).reverse
            = (n.reverse.takeWhile (fun c => c != '.') ++ c :: restTail).reverse := by
          rw [List.reverse_append, List.reverse_cons, List.append_assoc,
            List.singleton_append]
        rw [hrw, hsplit, List.reverse_reverse]

/-- Every rename candidate is strictly longer than the path it renames: the
stem and suffix together rebuild the old name, and at least the underscore is
added. -/
theorem length_renameCandidate (p : PathStr) (j : Nat) :
    p.length + 1 ≤ (renameCandidate p j).length := by
  have h1 : (dirPart p).length + (nameChars p).length = p.length := by
    rw [← List.length_append, dirPart_append_nameChars]
  have h2 : (stemChars p).length + (suffixChars p).length = (nameChars p).length := by
    rw [← List.length_append]
    exact congrArg List.length (splitExt_append (nameChars p))
  simp only [renameCandidate, with_name, List.length_append, List.length_cons]
  omega

/-- A member of a list of naturals is at most the list's foldr max. -/
theorem le_foldr_max {l : List Nat} {x : Nat} (hx : x ∈ l) : x ≤ l.foldr max 0 := by
  induction l with
  | nil => cases hx
  | cons a t ih =>
    rcases List.mem_cons.mp hx with h | h
    · subst h; exact le_max_left _ _
    · exact le_trans (ih h) (le_max_right _ _)

/-- A path with a recorded file contributes its length to the key lengths. -/
theorem mem_length_of_lookupFile {l : List (PathStr × FileContent)} {p : PathStr}
    (h : (lookupFile l p).isSome = true) :
    p.length ∈ l.map (fun e => e.1.length) := by
  induction l with
  | nil => simp [lookupFile] at h
  | cons e rest ih =>
    obtain ⟨q, c⟩ := e
    by_cases hq : q = p
    · subst hq
      simp only [List.map_cons]
      exact List.mem_cons_self _ _
    · simp only [lookupFile, hq, if_false] at h
      simp only [List.map_cons, List.mem_cons]
      exact Or.inr (ih h)

/-- A recorded directory contributes its length to the directory lengths. -/
theorem mem_length_of_containsPath {l : List PathStr} {p : PathStr}
    (h : containsPath l p = true) : p.length ∈ l.map List.length := by
  induction l with
  | nil => simp [containsPath] at h
  | cons q rest ih =>
    by_cases hq : q = p
    · subst hq
      simp only [List.map_cons]
      exact List.mem_cons_self _ _
    · simp only [containsPath, hq, if_false] at h
      simp only [List.map_cons, List.mem_cons]
      exact Or.inr (ih h)

/-- An existing path is at most `maxPathLen` long. -/
theorem length_le_maxPathLen {fs : FS} {p : PathStr}
    (h : os_path_exists fs p = true) : p.length ≤ maxPathLen fs := by
  unfold os_path_exists at h
  rw [Bool.and_eq_true, Bool.or_eq_true] at h
  apply le_foldr_max
  rcases h.2 with hf | hd
  · exact List.mem_append_left _ (mem_length_of_lookupFile hf)
  · exact List.mem_append_right _ (mem_length_of_containsPath hd)

/-- Re-anchoring the candidate sequence one step later. -/
theorem accumFrom_shift (p : PathStr) (j : Nat) :
    ∀ k, accumFrom (renameCandidate p j) (j + 1) k = accumFrom p j (k + 1) := by
  intro k
  induction k with
  | zero => simp [accumFrom]
  | succ k ih =>
    show renameCandidate (accumFrom (renameCandidate p j) (j + 1) k) (j + 1 + k)
        = renameCandidate (accumFrom p j (k + 1)) (j + (k + 1))
    rw [ih]
    congr 1
    omega

/-- With enough fuel, the rename loop stops exactly at the first non-existent
entry of the accumulating candidate sequence. -/
theorem renameLoop_spec (fs : FS) :
    ∀ (fuel : Nat) (p : PathStr) (j : Nat), maxPathLen fs < p.length + fuel →
    ∃ K, renameLoop fs fuel p j = accumFrom p j K
      ∧ os_path_exists fs (accumFrom p j K) = false
      ∧ ∀ k, k < K → os_path_exists fs (accumFrom p j k) = true := by
  intro fuel
  induction fuel with
  | zero =>
    intro p j h
    have hex : os_path_exists fs p = false := by
      cases hex : os_path_exists fs p with
      | false => rfl
      | true => exact absurd (length_le_maxPathLen hex) (by omega)
    exact ⟨0, rfl, hex, fun k hk => absurd hk (by omega)⟩
  | succ fuel ih =>
    intro p j h
    cases hex : os_path_exists fs p with
    | false =>
      exact ⟨0, by simp [renameLoop, hex, accumFrom], hex, fun k hk => absurd hk (by omega)⟩
    | true =>
      have hlen := length_renameCandidate p j
      obtain ⟨K, h1, h2, h3⟩ := ih (renameCandidate p j) (j + 1) (by omega)
      refine ⟨K + 1, ?_, ?_, ?_⟩
      · rw [← accumFrom_shift, ← h1]
        simp [renameLoop, hex]
      · rw [← accumFrom_shift]
        exact h2
      · intro k hk
        cases k with
        | zero => exact hex
        | succ k => rw [← accumFrom_shift]; exact h3 k (by omega)

/-- create_dirs_if_needed never touches the recorded files. -/
theorem create_dirs_if_needed_files (fs : FS) (p : PathStr) (c : Bool) :
    (create_dirs_if_needed fs p c).1.files = fs.files := by
  unfold create_dirs_if_needed
  split
  · split
    · rfl
    · rfl
  · rfl

/-- The directory-creation loop never touches the recorded files. -/
theorem create_dirs_loop_files (paths : List PathStr) :
    ∀ (fs : FS) (c : Bool), (create_dirs_loop fs paths c).1.files = fs.files := by
  induction paths with
  | nil => intro fs c; rfl
  | cons p rest ih =>
    intro fs c
    have hf := create_dirs_if_needed_files fs p c
    rcases h : create_dirs_if_needed fs p c with ⟨fs1, r⟩
    rw [h] at hf
    cases r with
    | error e =>
      simp only [create_dirs_loop, h]
      exact hf
    | ok u =>
      simp only [create_dirs_loop, h]
      exact (ih fs1 c).trans hf

/-- process_path_list never touches the recorded files. -/
theorem process_path_list_files (fs : FS) (pl : Option PathArg) (cd : Bool)
    (ds : DuplicateStrategy) :
    (process_path_list fs pl cd ds).1.files = fs.files := by
  cases pl with
  | none => rfl
  | some pa =>
    have hf := create_dirs_loop_files (toPathList pa) fs cd
    rcases h : create_dirs_loop fs (toPathList pa) cd with ⟨fs1, r⟩
    rw [h] at hf
    cases r with
    | error e =>
      simp only [process_path_list, h]
      exact hf
    | ok u =>
      simp only [process_path_list, h]
      exact hf

/-- The write loop never changes the filesystem: either a side is exhausted
(strict-zip ValueError or empty success) or the first pair's body fails at the
unbound name `data_format` before any write. -/
theorem save_loop_fst (fs : FS) (paths : List PathStr) (results : List PyData)
    (rd : Bool) : (save_loop fs paths results rd).1 = fs := by
  cases paths with
  | nil => cases results <;> rfl
  | cons p ps => cases results <;> rfl

/-- On a produced (path, data) pair the write loop raises NameError. -/
theorem save_loop_cons (fs : FS) (p : PathStr) (ps : List PathStr) (r : PyData)
    (rs : List PyData) (rd : Bool) :
    save_loop fs (p :: ps) (r :: rs) rd = (fs, .error (.nameError "data_format")) := rfl

/-- The decorated wrapper never changes the recorded files, whatever its
arguments: its only filesystem side effect is directory creation. -/
theorem save_to_file_wrapper_files (fs : FS) (pl : Option PathArg) (rd cd : Bool)
    (ds : DuplicateStrategy) (fr : FuncResult) :
    (save_to_file_wrapper fs pl rd cd ds fr).1.files = fs.files := by
  cases hv : validate_arguments pl rd with
  | error e => simp [save_to_file_wrapper, hv]
  | ok u =>
    rcases hp : process_path_list fs pl cd ds with ⟨fs1, rp⟩
    have hpf := process_path_list_files fs pl cd ds
    rw [hp] at hpf
    cases rp with
    | error e =>
      simp only [save_to_file_wrapper, hv, hp]
      exact hpf
    | ok plOpt =>
      cases hr : results_of fr with
      | error e =>
        simp only [save_to_file_wrapper, hv, hp, hr]
        exact hpf
      | ok results =>
        cases plOpt with
        | none =>
          simp only [save_to_file_wrapper, hv, hp, hr]
          exact hpf
        | some paths =>
          rcases hs : save_loop fs1 paths results rd with ⟨fs2, rs⟩
          have hsf := save_loop_fst fs1 paths results rd
          rw [hs] at hsf
          cases rs with
          | error e =>
            simp only [save_to_file_wrapper, hv, hp, hr, hs, hsf]
            exact hpf
          | ok acc =>
            simp only [save_to_file_wrapper, hv, hp, hr, hs, hsf]
            exact hpf

/-! ## Claim theorems -/

/-- C1: every call through the decorator with a non-None path_list whose
resolved (non-skipped) path list and produced data are both non-empty fails
with NameError on the unbound name `data_format` at the first pair; and no
call with a path_list ever writes a file (the recorded files are unchanged),
so no file write ever succeeds through the path_list branch. -/
theorem save_decorator_unbound_data_format (fs : FS) (pa : PathArg)
    (return_data create_dirs : Bool) (ds : DuplicateStrategy) (fr : FuncResult) :
    (save_to_file_wrapper fs (some pa) return_data create_dirs ds fr).1.files = fs.files
    ∧ ∀ fs1 p ps r rs,
        process_path_list fs (some pa) create_dirs ds = (fs1, .ok (some (p :: ps))) →
        results_of fr = .ok (r :: rs) →
        (save_to_file_wrapper fs (some pa) return_data create_dirs ds fr).2
          = .error (.nameError "data_format") := by
  refine ⟨save_to_file_wrapper_files fs (some pa) return_data create_dirs ds fr, ?_⟩
  intro fs1 p ps r rs hp hr
  have hv : validate_arguments (some pa) return_data = .ok () := by
    simp [validate_arguments]
  simp [save_to_file_wrapper, hv, hp, hr, save_loop_cons]

/-- C1 witness: a concrete call (one resolved path, one produced string) hits
the NameError. -/
theorem save_decorator_unbound_data_format_witness :
    (save_to_file_wrapper fsDirT (some (.many [pstr "t/a.txt"])) true false .skip
        (.single (.str "x"))).2 = .error (.nameError "data_format") :=
  (save_decorator_unbound_data_format fsDirT (.many [pstr "t/a.txt"]) true false .skip
      (.single (.str "x"))).2 fsDirT (pstr "t/a.txt") [] (.str "x") [] rfl rfl

/-- C2: with `a/b.txt` as destination and directory `a` missing, the run with
create_dirs=false fails with the configuration ValueError and creates nothing;
the run with create_dirs=true calls os.makedirs on the full destination path,
so `a/b.txt` itself becomes a directory and the write then fails with
IsADirectoryError instead of succeeding. -/
theorem create_dirs_makedirs_on_full_path :
    save_with_dirs fsEmpty (.str "x") (pstr "a/b.txt") "w" (some "utf-8") false
      = (fsEmpty, .error (.valueError "Destination directory does not exist: a"))
    ∧ save_with_dirs fsEmpty (.str "x") (pstr "a/b.txt") "w" (some "utf-8") true
      = ({ files := [], dirs := [pstr "a/b.txt", pstr "a"] },
         .error (.isADirectoryError "Destination is a directory: a/b.txt")) :=
  ⟨rfl, rfl⟩

/-- C3: with 3 desired paths of which `t/b.txt` pre-exists, SKIP resolves the
list to the 2 fresh paths, but the batch of 3 produced items then raises
NameError on the unbound `data_format` at the first pair: no file is written
and nothing is returned, instead of 2 writes and 2 returned items. -/
theorem skip_batch_crashes_before_writes :
    process_path_list fsSkip3
        (some (.many [pstr "t/a.txt", pstr "t/b.txt", pstr "t/c.txt"])) false .skip
      = (fsSkip3, .ok (some [pstr "t/a.txt", pstr "t/c.txt"]))
    ∧ save_to_file_wrapper fsSkip3
        (some (.many [pstr "t/a.txt", pstr "t/b.txt", pstr "t/c.txt"])) true false .skip
        (.gen [.str "d0", .str "d1", .str "d2"])
      = (fsSkip3, .error (.nameError "data_format")) :=
  ⟨rfl, rfl⟩

/-- C4: handle_duplicate_decorator under SKIP leaves an existing path in the
list (its SKIP branch is a bare `continue`), so a wrapped function that writes
to every received path overwrites the pre-existing file `d/f.txt`, whose
contents change from "old" to "new". -/
theorem handle_duplicate_skip_overwrites :
    handle_duplicate_wrapper writeNewToAll fsHd (some (.many [pstr "d/f.txt"])) .skip
      = ({ files := [(pstr "d/f.txt", .text "new"), (pstr "d/f.txt", .text "old")],
           dirs := [pstr "d"] }, .ok ())
    ∧ readTextUTF8
        (handle_duplicate_wrapper writeNewToAll fsHd (some (.many [pstr "d/f.txt"])) .skip).1
        (pstr "d/f.txt") = some "new" :=
  ⟨rfl, rfl⟩

/-- C5: with 2 resolved paths and 3 produced items the operation raises
NameError on the unbound `data_format` at the first pair, not the documented
ValueError of the strict zip; the strict-zip ValueError is reachable only when
one of the two sides is already exhausted, as in the second conjunct. -/
theorem length_mismatch_raises_nameError_not_valueError :
    save_to_file_wrapper fsDirT (some (.many [pstr "t/a.txt", pstr "t/b.txt"])) true false
        .skip (.gen [.str "d0", .str "d1", .str "d2"])
      = (fsDirT, .error (.nameError "data_format"))
    ∧ save_loop fsDirT [] [.str "d0"] true
      = (fsDirT, .error (.valueError "zip() argument 2 is longer than argument 1")) :=
  ⟨rfl, rfl⟩

/-- C6: handle_duplicate_rename of the download module raises NameError on the
unbound name `to` for every existing path (here the recorded `d/f.txt`), so it
never produces a renamed path; a non-existent path skips the loop and comes
back unchanged. -/
theorem handle_duplicate_rename_nameError :
    handle_duplicate_rename fsHd (pstr "d/f.txt") = .error (.nameError "to")
    ∧ handle_duplicate_rename fsHd (pstr "d/g.txt") = .ok (pstr "d/g.txt") :=
  ⟨rfl, rfl⟩

/-- C7 counterexample: with `f.txt` and `f_1.txt` both existing, RENAME
resolves `f.txt` to `f_1_2.txt` (the second candidate keeps the first numeric
suffix inside the stem), not to the `f_2.txt` the claim's incrementing-suffix
description demands. -/
theorem rename_suffix_counterexample :
    preprocess_duplicate_paths fsRen [pstr "f.txt"] .rename = [pstr "f_1_2.txt"]
    ∧ (pstr "f_1_2.txt" == pstr "f_2.txt") = false :=
  ⟨rfl, rfl⟩

/-- C7 amended: under RENAME an existing destination path is substituted by
the first non-existent entry of the accumulating candidate sequence
(`stem.ext`, `stem_1.ext`, `stem_1_2.ext`, ...), each candidate being
re-checked against the filesystem, with at least one rename step taken. -/
theorem preprocess_rename_spec (fs : FS) (path : PathStr)
    (hex : os_path_exists fs path = true) :
    ∃ K, 0 < K
      ∧ preprocess_duplicate_paths fs [path] .rename = [accumFrom path 1 K]
      ∧ os_path_exists fs (accumFrom path 1 K) = false
      ∧ ∀ k, k < K → os_path_exists fs (accumFrom path 1 k) = true := by
  obtain ⟨K, h1, h2, h3⟩ := renameLoop_spec fs (maxPathLen fs + 1) path 1 (by omega)
  have hK : 0 < K := by
    rcases Nat.eq_zero_or_pos K with h0 | h0
    · subst h0
      rw [show accumFrom path 1 0 = path from rfl, hex] at h2
      cases h2
    · exact h0
  refine ⟨K, hK, ?_, h2, h3⟩
  simp [preprocess_duplicate_paths, hex, renameResolve, h1]

/-- C7 witness: the amended statement at the concrete filesystem with `f.txt`
and `f_1.txt` existing. -/
theorem preprocess_rename_spec_witness :
    os_path_exists fsRen (pstr "f.txt") = true
    ∧ ∃ K, 0 < K
      ∧ preprocess_duplicate_paths fsRen [pstr "f.txt"] .rename
          = [accumFrom (pstr "f.txt") 1 K]
      ∧ os_path_exists fsRen (accumFrom (pstr "f.txt") 1 K) = false
      ∧ ∀ k, k < K → os_path_exists fsRen (accumFrom (pstr "f.txt") 1 k) = true :=
  ⟨rfl, preprocess_rename_spec fsRen (pstr "f.txt") rfl⟩

/-- C8: when the destination is not a directory and its parent exists, writing
a string as text data stores exactly that string and reading it back with
UTF-8 decoding returns it; writing bytes as binary data stores exactly those
bytes and reading them back returns them byte for byte; the modes and
encodings are the ones determine_mode_and_encoding selects. -/
theorem save_roundtrip (fs : FS) (dest : PathStr) (s : String) (b : List Nat)
    (hdir : os_path_isdir fs dest = false)
    (hparent : os_path_exists fs (dirnameChars dest) = true) :
    (determine_mode_and_encoding (.str s) none false = .ok ("w", some "utf-8")
      ∧ save_data_to_file fs (.str s) dest "w" (some "utf-8")
          = (setFile fs dest (.text s), .ok ())
      ∧ readTextUTF8 (setFile fs dest (.text s)) dest = some s)
    ∧ (determine_mode_and_encoding (.bytes b) none false = .ok ("wb", none)
      ∧ save_data_to_file fs (.bytes b) dest "wb" none
          = (setFile fs dest (.bin b), .ok ())
      ∧ readBytes (setFile fs dest (.bin b)) dest = some b) := by
  refine ⟨⟨rfl, ?_, ?_⟩, rfl, ?_, ?_⟩
  · unfold save_data_to_file
    simp only [hdir, hparent]
    rfl
  · simp [readTextUTF8, setFile, lookupFile]
  · unfold save_data_to_file
    simp only [hdir, hparent]
    rfl
  · simp [readBytes, setFile, lookupFile]

/-- C8 witness: the round trip at a concrete destination under directory `t`. -/
theorem save_roundtrip_witness :
    (determine_mode_and_encoding (.str "hi") none false = .ok ("w", some "utf-8")
      ∧ save_data_to_file fsDirT (.str "hi") (pstr "t/x.txt") "w" (some "utf-8")
          = (setFile fsDirT (pstr "t/x.txt") (.text "hi"), .ok ())
      ∧ readTextUTF8 (setFile fsDirT (pstr "t/x.txt") (.text "hi")) (pstr "t/x.txt")
          = some "hi")
    ∧ (determine_mode_and_encoding (.bytes [0, 7, 255]) none false = .ok ("wb", none)
      ∧ save_data_to_file fsDirT (.bytes [0, 7, 255]) (pstr "t/x.txt") "wb" none
          = (setFile fsDirT (pstr "t/x.txt") (.bin [0, 7, 255]), .ok ())
      ∧ readBytes (setFile fsDirT (pstr "t/x.txt") (.bin [0, 7, 255])) (pstr "t/x.txt")
          = some [0, 7, 255]) :=
  save_roundtrip fsDirT (pstr "t/x.txt") "hi" [0, 7, 255] rfl rfl

/-- C9: every HttpError the remote export raises is caught inside
export_google_workspace_document, which then returns None (no content) rather
than raising; indeed for any oracle outcome the function returns normally. -/
theorem export_httperror_swallowed (e : String) :
    export_google_workspace_document (.error e) = .ok none
    ∧ ∀ remote, ∃ v, export_google_workspace_document remote = .ok v := by
  refine ⟨rfl, fun remote => ?_⟩
  cases remote with
  | ok content => exact ⟨some content, rfl⟩
  | error msg => exact ⟨none, rfl⟩

/-- C10: a destination with no directory component has dirname "", which fails
save_data_to_file's parent-existence check with FileNotFoundError (Python's
os.path.exists("") is False), while create_dirs_if_needed accepts such a path
without error for either value of create_missing_dirs. -/
theorem bare_filename_save (fs : FS) (bare : PathStr) (data : PyData)
    (encoding : Option String) (create_missing_dirs : Bool)
    (hname : dirnameChars bare = [])
    (hdir : os_path_isdir fs bare = false) :
    save_data_to_file fs data bare "w" encoding
      = (fs, .error (.fileNotFoundError ("Destination does not exist: " ++ String.mk bare)))
    ∧ create_dirs_if_needed fs bare create_missing_dirs = (fs, .ok ()) := by
  constructor
  · unfold save_data_to_file
    simp only [hname, hdir]
    rfl
  · unfold create_dirs_if_needed
    simp only [hname]
    rfl

/-- C10 witness: the bare filename `file.txt` on the empty filesystem. -/
theorem bare_filename_save_witness :
    dirnameChars (pstr "file.txt") = []
    ∧ os_path_isdir fsEmpty (pstr "file.txt") = false
    ∧ (save_data_to_file fsEmpty (.str "x") (pstr "file.txt") "w" (some "utf-8")
        = (fsEmpty, .error (.fileNotFoundError
            ("Destination does not exist: " ++ String.mk (pstr "file.txt"))))
      ∧ create_dirs_if_needed fsEmpty (pstr "file.txt") true = (fsEmpty, .ok ())) :=
  ⟨rfl, rfl, bare_filename_save fsEmpty (pstr "file.txt") (.str "x") (some "utf-8") true rfl rfl⟩
